import Mathlib

/-!
# Anchor escrow: shallow embedding and verification

A shallow embedding of the `anchor_escrow` Solana program
(`programs/anchor-escrow/src`): the `Escrow` record written by
`Make::save_escrow`, a custody token account ("vault"), and the three
instructions `make`, `take`, `refund` from `lib.rs` together with the
account-validation constraints of `contexts/make.rs`, `contexts/take.rs`
and `contexts/refund.rs`.

Modelling conventions:
* Addresses (wallet pubkeys) and mint identities are `Nat`.
* Associated token accounts are keyed by `(authority, mint)`; their `u64`
  balances are `Nat` together with explicit `2 ^ 64` overflow checks at
  every credit, matching the overflow refusal of `spl_token::transfer_checked`.
* The program-derived escrow address (`seeds = [b"escrow", maker, seed_le]`)
  is modelled by the injective pairing `escrowAddress`; the canonical bump
  found by the runtime is modelled by `escrowBump`.
* Mint account deserialization, rent lamports and decimals are out of scope
  (the spec treats the ledger and the token program as external
  collaborators); asset identities are taken to be well-formed.
* Every instruction returns `Except Err (Chain × List Event)`: the new
  ledger fragment plus an ordered log of the token-program invocations it
  performed.  The host runtime's transaction semantics (an erroring
  instruction reverts wholesale) is `visibleAfter`.
* Checks happen in the order Anchor evaluates them: account by account in
  struct declaration order, and `has_one` constraints in their written
  order, before the instruction handler body runs.
-/

namespace AnchorEscrow

/-- Token amounts are `u64` in the source: any credit reaching `2 ^ 64`
is refused by the token program. -/
def U64LIM : Nat := 2 ^ 64

/-- The escrow record, exactly the fields written by `Make::save_escrow`:
`seed`, `maker`, `mint_a`, `mint_b`, `receive`, `bump`. -/
structure Escrow where
  seed : Nat
  maker : Nat
  mint_a : Nat
  mint_b : Nat
  receive : Nat
  bump : Nat
deriving DecidableEq, Repr

/-- A token account: mint, authority, and current amount. -/
structure TokenAccount where
  mint : Nat
  owner : Nat
  amount : Nat
deriving DecidableEq, Repr

/-- Error taxonomy of the spec (§7).  `overflow` stands for the token
program's refusal to overflow a destination balance. -/
inductive Err where
  | notFound
  | alreadyExists
  | unauthorized
  | termMismatch
  | insufficientBalance
  | invalidAsset
  | custodyNotEmpty
  | overflow
deriving DecidableEq, Repr

/-- Observable token-program invocations, in execution order.  Transfers
name the mint, the source authority, the destination authority and the
amount; closes name the rent destination. -/
inductive Event where
  | createAta (owner mint : Nat)
  | transfer (mint source dest amount : Nat)
  | closeVault (dest : Nat)
  | closeEscrow (dest : Nat)
deriving DecidableEq, Repr

/-- The ledger fragment the program touches: the (single) escrow record,
its custody vault, and the associated token accounts keyed by
`(authority, mint)`. -/
structure Chain where
  escrow : Option Escrow
  vault : Option TokenAccount
  atas : List ((Nat × Nat) × Nat)
deriving DecidableEq, Repr

/-- Look up an associated token account's balance; `none` means the account
does not exist on the ledger. -/
def getAta : List ((Nat × Nat) × Nat) → Nat × Nat → Option Nat
  | [], _ => none
  | (k', v) :: rest, k => if k' = k then some v else getAta rest k

/-- Write an associated token account's balance, creating the entry when
absent. -/
def setAta : List ((Nat × Nat) × Nat) → Nat × Nat → Nat → List ((Nat × Nat) × Nat)
  | [], k, v => [(k, v)]
  | (k', v') :: rest, k, v =>
      if k' = k then (k, v) :: rest else (k', v') :: setAta rest k v

/-- Anchor's `init_if_needed`: create the associated token account with zero
balance when it is absent.  Returns the updated table and the creation
events. -/
def initIfNeeded (l : List ((Nat × Nat) × Nat)) (k : Nat × Nat) :
    List ((Nat × Nat) × Nat) × List Event :=
  match getAta l k with
  | some _ => (l, [])
  | none => (setAta l k 0, [Event.createAta k.1 k.2])

/-- `spl_token::transfer_checked` between two associated token accounts:
both must exist, the source must cover the amount, and the destination must
not overflow `u64`.  A self-transfer (same key) nets to no change, as in the
token program. -/
def transferAta (l : List ((Nat × Nat) × Nat)) (src dst : Nat × Nat) (amt : Nat) :
    Except Err (List ((Nat × Nat) × Nat)) :=
  match getAta l src with
  | none => .error .notFound
  | some bf =>
    if amt ≤ bf then
      match getAta (setAta l src (bf - amt)) dst with
      | none => .error .notFound
      | some bt =>
        if bt + amt < U64LIM then .ok (setAta (setAta l src (bf - amt)) dst (bt + amt))
        else .error .overflow
    else .error .insufficientBalance

/-- The vault side of `transfer_checked(ctx, self.vault.amount, ...)`: debit
the custody account by `amt` (the source must cover it). -/
def withdrawVault (v : TokenAccount) (amt : Nat) : Except Err TokenAccount :=
  if v.amount < amt then .error .insufficientBalance
  else .ok { v with amount := v.amount - amt }

/-- `spl_token::close_account` on the custody account: refuses unless the
balance is zero (the spec's `CustodyNotEmpty`). -/
def closeVaultCheck (v : TokenAccount) : Except Err Unit :=
  if v.amount = 0 then .ok () else .error .custodyNotEmpty

/-- The escrow record's program-derived address,
`find_program_address([b"escrow", maker, seed_le])`, modelled as an
injective pairing of its variable inputs. -/
def escrowAddress (maker seed : Nat) : Nat := Nat.pair maker seed

/-- The canonical bump byte found alongside `escrowAddress`. -/
def escrowBump (maker seed : Nat) : Nat := Nat.pair maker seed % 256

/-- The `make` instruction (`Make` accounts struct, then
`deposit(deposit)` and `save_escrow(seed, receive, bumps)`):
the maker's mint-A account must exist, the escrow record and vault are
`init` (fresh), `deposit` tokens of `mintA` move from the maker into the
fresh vault whose authority is the escrow address, and the record is
written with exactly `(seed, maker, mintA, mintB, receive, bump)`. -/
def make (c : Chain) (maker seed depositAmt receiveAmt mintA mintB : Nat) :
    Except Err (Chain × List Event) :=
  match getAta c.atas (maker, mintA) with
  | none => .error .notFound
  | some balA =>
    match c.escrow with
    | some _ => .error .alreadyExists
    | none =>
      match c.vault with
      | some _ => .error .alreadyExists
      | none =>
        if depositAmt ≤ balA then
          if depositAmt < U64LIM then
            .ok ({ escrow := some ⟨seed, maker, mintA, mintB, receiveAmt,
                                   escrowBump maker seed⟩,
                   vault := some ⟨mintA, escrowAddress maker seed, depositAmt⟩,
                   atas := setAta c.atas (maker, mintA) (balA - depositAmt) },
                 [Event.transfer mintA maker (escrowAddress maker seed) depositAmt])
          else .error .overflow
        else .error .insufficientBalance

/-- The `take` instruction (`Take` accounts struct, then `deposit()` and
`withdraw_and_close_vault()`).  Validation in struct order: `taker_ata_a`
is `init_if_needed`, `taker_ata_b` must exist, `maker_ata_b` is
`init_if_needed`, then the escrow's `has_one = maker`, `has_one = mint_a`,
`has_one = mint_b` constraints, then the vault's associated-token
constraints.  The handler transfers `escrow.receive` of mint B from taker
to maker, then the vault's entire current balance of mint A to the taker,
then closes the vault (rent to taker); Anchor's `close = maker` retires the
record (rent to maker). -/
def take (c : Chain) (taker maker mintA mintB : Nat) :
    Except Err (Chain × List Event) :=
  match getAta (initIfNeeded c.atas (taker, mintA)).1 (taker, mintB) with
  | none => .error .notFound
  | some _ =>
    match c.escrow with
    | none => .error .notFound
    | some e =>
      if maker = e.maker then
        if mintA = e.mint_a then
          if mintB = e.mint_b then
            match c.vault with
            | none => .error .notFound
            | some v =>
              if v.owner = escrowAddress e.maker e.seed ∧ v.mint = mintA then
                match transferAta
                    (initIfNeeded (initIfNeeded c.atas (taker, mintA)).1 (maker, mintB)).1
                    (taker, mintB) (maker, mintB) e.receive with
                | .error er => .error er
                | .ok atas3 =>
                  match withdrawVault v v.amount with
                  | .error er => .error er
                  | .ok v' =>
                    match getAta atas3 (taker, mintA) with
                    | none => .error .notFound
                    | some bt =>
                      if bt + v.amount < U64LIM then
                        match closeVaultCheck v' with
                        | .error er => .error er
                        | .ok _ =>
                          .ok ({ escrow := none,
                                 vault := none,
                                 atas := setAta atas3 (taker, mintA) (bt + v.amount) },
                               (initIfNeeded c.atas (taker, mintA)).2 ++
                               (initIfNeeded (initIfNeeded c.atas (taker, mintA)).1
                                 (maker, mintB)).2 ++
                               [Event.transfer mintB taker maker e.receive,
                                Event.transfer mintA v.owner taker v.amount,
                                Event.closeVault taker,
                                Event.closeEscrow maker])
                      else .error .overflow
              else .error .termMismatch
          else .error .termMismatch
        else .error .termMismatch
      else .error .termMismatch

/-- The `refund` instruction (`Refund` accounts struct, then
`refund_and_close_vault()`).  Validation in struct order: the caller signs
as `maker`, the caller's mint-A account must exist, then the escrow
account.  For the escrow account, Anchor's constraint linearization
evaluates the `seeds = [b"escrow", maker.key(), escrow.seed]` /
`bump = escrow.bump` derivation binding before the `has_one` group:
re-deriving the record's address from the signing caller's key fails for
any caller other than the stored maker (bad authority derivation, the
spec's `Unauthorized`), before `has_one = mint_a` is reached; the
subsequent `has_one = maker` is then subsumed by the passed seeds check.
Then the vault's associated-token constraints.  The handler transfers the
vault's entire current balance of mint A to the caller, then closes the
vault (rent to maker); `close = maker` retires the record. -/
def refund (c : Chain) (caller mintA : Nat) :
    Except Err (Chain × List Event) :=
  match getAta c.atas (caller, mintA) with
  | none => .error .notFound
  | some bm =>
    match c.escrow with
    | none => .error .notFound
    | some e =>
      if caller = e.maker then
        if mintA = e.mint_a then
          match c.vault with
          | none => .error .notFound
          | some v =>
            if v.owner = escrowAddress e.maker e.seed ∧ v.mint = mintA then
              match withdrawVault v v.amount with
              | .error er => .error er
              | .ok v' =>
                if bm + v.amount < U64LIM then
                  match closeVaultCheck v' with
                  | .error er => .error er
                  | .ok _ =>
                    .ok ({ escrow := none,
                           vault := none,
                           atas := setAta c.atas (caller, mintA) (bm + v.amount) },
                         [Event.transfer mintA v.owner caller v.amount,
                          Event.closeVault caller,
                          Event.closeEscrow caller])
                else .error .overflow
            else .error .termMismatch
        else .error .termMismatch
      else .error .unauthorized

/-- The state visible to other parties after an instruction: the Solana
runtime reverts the whole transaction when an instruction errors (spec §5
delegates transaction atomicity to the host environment). -/
def visibleAfter (r : Except Err (Chain × List Event)) (c : Chain) : Chain :=
  match r with
  | .ok (c', _) => c'
  | .error _ => c

/-! ## Basic facts about the associated-token-account table -/

theorem getAta_setAta_self (l : List ((Nat × Nat) × Nat)) (k : Nat × Nat) (v : Nat) :
    getAta (setAta l k v) k = some v := by
  induction l with
  | nil => simp [getAta, setAta]
  | cons hd tl ih =>
    obtain ⟨k', v'⟩ := hd
    simp only [setAta]
    by_cases h : k' = k
    · simp [h, getAta]
    · simp [getAta, h, ih]

theorem getAta_setAta_ne (l : List ((Nat × Nat) × Nat)) (k k' : Nat × Nat) (v : Nat)
    (h : k' ≠ k) : getAta (setAta l k v) k' = getAta l k' := by
  have h' : ¬ (k = k') := fun hh => h hh.symm
  induction l with
  | nil => simp [getAta, setAta, h']
  | cons hd tl ih =>
    obtain ⟨k0, v0⟩ := hd
    simp only [setAta]
    by_cases hk : k0 = k
    · subst hk
      simp [getAta, h']
    · simp only [if_neg hk, getAta, ih]

theorem getAta_initIfNeeded_self (l : List ((Nat × Nat) × Nat)) (k : Nat × Nat) :
    getAta (initIfNeeded l k).1 k = some ((getAta l k).getD 0) := by
  unfold initIfNeeded
  cases h : getAta l k with
  | none => simp [getAta_setAta_self]
  | some b => simp [h]

theorem getAta_initIfNeeded_ne (l : List ((Nat × Nat) × Nat)) (k k' : Nat × Nat)
    (h : k' ≠ k) : getAta (initIfNeeded l k).1 k' = getAta l k' := by
  unfold initIfNeeded
  cases hk : getAta l k with
  | none => simp [getAta_setAta_ne _ _ _ _ h]
  | some b => simp

/-- Inversion of a successful `transfer_checked` between distinct accounts:
both accounts existed, the source covered the amount, the destination did
not overflow, and the new table is the debit followed by the credit. -/
theorem transferAta_ok (l l' : List ((Nat × Nat) × Nat)) (src dst : Nat × Nat)
    (amt : Nat) (hne : dst ≠ src) (h : transferAta l src dst amt = .ok l') :
    ∃ bf bt, getAta l src = some bf ∧ amt ≤ bf ∧ getAta l dst = some bt ∧
      bt + amt < U64LIM ∧ l' = setAta (setAta l src (bf - amt)) dst (bt + amt) := by
  unfold transferAta at h
  cases hsrc : getAta l src with
  | none => rw [hsrc] at h; cases h
  | some bf =>
    rw [hsrc] at h
    simp only at h
    by_cases hle : amt ≤ bf
    · rw [if_pos hle] at h
      cases hdst : getAta (setAta l src (bf - amt)) dst with
      | none => rw [hdst] at h; cases h
      | some bt =>
        rw [hdst] at h
        simp only at h
        by_cases hov : bt + amt < U64LIM
        · rw [if_pos hov] at h
          refine ⟨bf, bt, rfl, hle, ?_, hov, ?_⟩
          · rw [← hdst, getAta_setAta_ne _ _ _ _ hne]
          · cases h; rfl
        · rw [if_neg hov] at h; cases h
    · rw [if_neg hle] at h; cases h

/-! ## Inversion lemmas for the three instructions -/

/-- A successful `take` retires both the escrow record and the vault. -/
theorem take_ok_closed (c : Chain) (taker maker mintA mintB : Nat)
    (c' : Chain) (log : List Event)
    (h : take c taker maker mintA mintB = .ok (c', log)) :
    c'.escrow = none ∧ c'.vault = none := by
  unfold take at h
  repeat' split at h
  all_goals cases h
  exact ⟨rfl, rfl⟩

/-- A successful `refund` retires both the escrow record and the vault. -/
theorem refund_ok_closed (c : Chain) (caller mintA : Nat)
    (c' : Chain) (log : List Event)
    (h : refund c caller mintA = .ok (c', log)) :
    c'.escrow = none ∧ c'.vault = none := by
  unfold refund at h
  repeat' split at h
  all_goals cases h
  exact ⟨rfl, rfl⟩

/-- Full characterization of a successful `make`. -/
theorem make_ok_inv (c : Chain) (maker seed depositAmt receiveAmt mintA mintB : Nat)
    (c' : Chain) (log : List Event)
    (h : make c maker seed depositAmt receiveAmt mintA mintB = .ok (c', log)) :
    ∃ balA, getAta c.atas (maker, mintA) = some balA ∧ depositAmt ≤ balA ∧
      c.escrow = none ∧ c.vault = none ∧
      c' = { escrow := some ⟨seed, maker, mintA, mintB, receiveAmt, escrowBump maker seed⟩,
             vault := some ⟨mintA, escrowAddress maker seed, depositAmt⟩,
             atas := setAta c.atas (maker, mintA) (balA - depositAmt) } ∧
      log = [Event.transfer mintA maker (escrowAddress maker seed) depositAmt] := by
  unfold make at h
  split at h
  next => cases h
  next balA hba =>
    split at h
    next e hesc => cases h
    next hesc =>
      split at h
      next v hv => cases h
      next hv =>
        split at h
        next hle =>
          split at h
          next hov =>
            cases h
            exact ⟨balA, hba, hle, hesc, hv, rfl, rfl⟩
          next hov => cases h
        next hle => cases h

/-- Full characterization of a successful `refund` against an existing
record and vault: the caller is the stored maker, the supplied mint is the
stored mint A, the caller's holding existed, the whole vault balance was
credited to it without overflow, both accounts are retired, and the log is
the transfer followed by the two closes with the maker as rent
destination. -/
theorem refund_ok_inv (c : Chain) (e : Escrow) (v : TokenAccount)
    (caller mintA : Nat) (c' : Chain) (log : List Event)
    (hesc : c.escrow = some e) (hv : c.vault = some v)
    (h : refund c caller mintA = .ok (c', log)) :
    ∃ bm, caller = e.maker ∧ mintA = e.mint_a ∧
      getAta c.atas (caller, mintA) = some bm ∧ bm + v.amount < U64LIM ∧
      c' = { escrow := none, vault := none,
             atas := setAta c.atas (caller, mintA) (bm + v.amount) } ∧
      log = [Event.transfer mintA v.owner caller v.amount,
             Event.closeVault caller, Event.closeEscrow caller] := by
  unfold refund at h
  repeat' split at h
  all_goals cases h
  rename_i x1 bm hbm x2 e2 hesc2 hcm hma x3 v2 hv2 hvo x4 v' hw hov x5 u hcl
  rw [hesc] at hesc2
  rw [hv] at hv2
  cases hesc2
  cases hv2
  exact ⟨bm, hcm, hma, hbm, hov, rfl, rfl⟩

/-- Full characterization of a successful `take` against an existing record
and vault: the supplied maker and mints are the stored ones, the mint-B
transfer of `e.receive` from taker to maker succeeded, the whole vault
balance was credited to the taker's mint-A holding without overflow, both
accounts are retired, and the log is the two transfers followed by the two
closes (vault rent to the taker, record rent to the maker). -/
theorem take_ok_inv (c : Chain) (e : Escrow) (v : TokenAccount)
    (taker maker mintA mintB : Nat) (c' : Chain) (log : List Event)
    (hesc : c.escrow = some e) (hv : c.vault = some v)
    (h : take c taker maker mintA mintB = .ok (c', log)) :
    maker = e.maker ∧ mintA = e.mint_a ∧ mintB = e.mint_b ∧
    ∃ atas3 bt,
      transferAta (initIfNeeded (initIfNeeded c.atas (taker, mintA)).1 (maker, mintB)).1
          (taker, mintB) (maker, mintB) e.receive = .ok atas3 ∧
      getAta atas3 (taker, mintA) = some bt ∧ bt + v.amount < U64LIM ∧
      c' = { escrow := none, vault := none,
             atas := setAta atas3 (taker, mintA) (bt + v.amount) } ∧
      log = (initIfNeeded c.atas (taker, mintA)).2 ++
            (initIfNeeded (initIfNeeded c.atas (taker, mintA)).1 (maker, mintB)).2 ++
            [Event.transfer mintB taker maker e.receive,
             Event.transfer mintA v.owner taker v.amount,
             Event.closeVault taker, Event.closeEscrow maker] := by
  unfold take at h
  repeat' split at h
  all_goals cases h
  rename_i x1 b hb x2 e2 hesc2 hmk hma hmb x3 v2 hv2 hvo x4 atas3 hxfer x5 v' hw x6 bt hbt hov x7 u hcl
  rw [hesc] at hesc2
  rw [hv] at hv2
  cases hesc2
  cases hv2
  exact ⟨hmk, hma, hmb, atas3, bt, hxfer, hbt, hov, rfl, rfl⟩

/-- `take` against a retired record fails with `NotFound`, whatever the
other supplied accounts are. -/
theorem take_escrow_none (c : Chain) (taker maker mintA mintB : Nat)
    (h : c.escrow = none) :
    take c taker maker mintA mintB = .error .notFound := by
  unfold take
  rw [h]
  split <;> rfl

/-- `refund` against a retired record fails with `NotFound`, whatever the
other supplied accounts are. -/
theorem refund_escrow_none (c : Chain) (caller mintA : Nat)
    (h : c.escrow = none) :
    refund c caller mintA = .error .notFound := by
  unfold refund
  rw [h]
  split <;> rfl

/-! ## Claims -/

/-- C3: a successful Create-Escrow(seed, deposit_amount, receive_amount)
transfers exactly deposit_amount of asset X from the maker's holding into a
newly created custody holding whose authority is the escrow record's
derived address, and writes the escrow record with exactly the fields
(seed, maker, asset_x_id, asset_y_id, receive_amount, authority_bump). -/
theorem make_effects (c : Chain) (maker seed depositAmt receiveAmt mintA mintB : Nat)
    (c' : Chain) (log : List Event) (balA : Nat)
    (hba : getAta c.atas (maker, mintA) = some balA)
    (h : make c maker seed depositAmt receiveAmt mintA mintB = .ok (c', log)) :
    c'.escrow = some ⟨seed, maker, mintA, mintB, receiveAmt, escrowBump maker seed⟩ ∧
    c'.vault = some ⟨mintA, escrowAddress maker seed, depositAmt⟩ ∧
    getAta c'.atas (maker, mintA) = some (balA - depositAmt) ∧
    depositAmt ≤ balA ∧
    (∀ k : Nat × Nat, k ≠ (maker, mintA) → getAta c'.atas k = getAta c.atas k) ∧
    log = [Event.transfer mintA maker (escrowAddress maker seed) depositAmt] := by
  obtain ⟨balA2, hba2, hle, hesc, hv, hc', hlog⟩ := make_ok_inv _ _ _ _ _ _ _ _ _ h
  rw [hba] at hba2
  cases hba2
  subst hc'
  subst hlog
  refine ⟨rfl, rfl, ?_, hle, ?_, rfl⟩
  · exact getAta_setAta_self _ _ _
  · intro k hk
    exact getAta_setAta_ne _ _ _ _ hk

/-- Witness for `make_effects` at a concrete input. -/
def chainC3 : Chain := { escrow := none, vault := none, atas := [((1, 10), 120)] }

theorem make_effects_wit :
    make chainC3 1 7 100 5 10 11
      = .ok ({ escrow := some ⟨7, 1, 10, 11, 5, escrowBump 1 7⟩,
               vault := some ⟨10, escrowAddress 1 7, 100⟩,
               atas := [((1, 10), 20)] },
             [Event.transfer 10 1 (escrowAddress 1 7) 100]) ∧
    getAta chainC3.atas (1, 10) = some 120 ∧
    ({ escrow := some ⟨7, 1, 10, 11, 5, escrowBump 1 7⟩,
       vault := some ⟨10, escrowAddress 1 7, 100⟩,
       atas := [((1, 10), 20)] } : Chain).vault
      = some ⟨10, escrowAddress 1 7, 100⟩ := by
  refine ⟨by rfl, by rfl, ?_⟩
  exact (make_effects chainC3 1 7 100 5 10 11 _ _ 120 (by rfl) (by rfl)).2.1

/-- C2: a successful Refund transfers the entire current balance of the
custody holding (asset X) back to the maker's asset-X holding and closes
both the custody holding and the escrow record with both rent refunds to
the maker; the maker's asset-X balance grows by exactly the original
deposit (the custody balance) and no other balances change. -/
theorem refund_conservation (c : Chain) (e : Escrow) (v : TokenAccount)
    (caller mintA d : Nat) (c' : Chain) (log : List Event)
    (hesc : c.escrow = some e) (hv : c.vault = some v) (hd : v.amount = d)
    (h : refund c caller mintA = .ok (c', log)) :
    getAta c'.atas (e.maker, e.mint_a)
      = some ((getAta c.atas (e.maker, e.mint_a)).getD 0 + d) ∧
    (∀ k : Nat × Nat, k ≠ (e.maker, e.mint_a) → getAta c'.atas k = getAta c.atas k) ∧
    c'.escrow = none ∧ c'.vault = none ∧
    log = [Event.transfer e.mint_a v.owner e.maker d,
           Event.closeVault e.maker, Event.closeEscrow e.maker] := by
  obtain ⟨bm, hcm, hma, hbm, hov, hc', hlog⟩ :=
    refund_ok_inv c e v caller mintA c' log hesc hv h
  subst hcm
  subst hma
  subst hd
  subst hc'
  subst hlog
  refine ⟨?_, ?_, rfl, rfl, rfl⟩
  · rw [getAta_setAta_self, hbm]
    rfl
  · intro k hk
    exact getAta_setAta_ne _ _ _ _ hk

/-- Witness for `refund_conservation` at a concrete input. -/
def chainC2 : Chain :=
  { escrow := some ⟨7, 1, 10, 11, 5, escrowBump 1 7⟩,
    vault := some ⟨10, escrowAddress 1 7, 100⟩,
    atas := [((1, 10), 3), ((2, 11), 40)] }

theorem refund_conservation_wit :
    refund chainC2 1 10
      = .ok ({ escrow := none, vault := none,
               atas := [((1, 10), 103), ((2, 11), 40)] },
             [Event.transfer 10 (escrowAddress 1 7) 1 100,
              Event.closeVault 1, Event.closeEscrow 1]) ∧
    getAta ({ escrow := none, vault := none,
              atas := [((1, 10), 103), ((2, 11), 40)] } : Chain).atas (1, 10)
      = some ((getAta chainC2.atas (1, 10)).getD 0 + 100) := by
  refine ⟨by rfl, ?_⟩
  exact (refund_conservation chainC2 ⟨7, 1, 10, 11, 5, escrowBump 1 7⟩
    ⟨10, escrowAddress 1 7, 100⟩ 1 10 100 _ _ (by rfl) (by rfl) (by rfl) (by rfl)).1

/-- C4: once Complete-Swap or Refund has succeeded, the record and the
custody holding are destroyed and any subsequent Complete-Swap or Refund
against that escrow fails with NotFound; the terminal states admit no
transition, so at most one of the two terminal operations ever succeeds. -/
theorem terminal_exclusivity (c c' : Chain) (log : List Event)
    (taker maker mintA mintB caller mintR : Nat)
    (h : take c taker maker mintA mintB = .ok (c', log) ∨
         refund c caller mintR = .ok (c', log)) :
    c'.escrow = none ∧ c'.vault = none ∧
    (∀ t2 m2 a2 b2, take c' t2 m2 a2 b2 = .error .notFound) ∧
    (∀ cl2 r2, refund c' cl2 r2 = .error .notFound) := by
  have hclosed : c'.escrow = none ∧ c'.vault = none := by
    cases h with
    | inl h => exact take_ok_closed _ _ _ _ _ _ _ h
    | inr h => exact refund_ok_closed _ _ _ _ _ h
  exact ⟨hclosed.1, hclosed.2,
    fun t2 m2 a2 b2 => take_escrow_none _ t2 m2 a2 b2 hclosed.1,
    fun cl2 r2 => refund_escrow_none _ cl2 r2 hclosed.1⟩

/-- Witness for `terminal_exclusivity` at a concrete input: after a
successful refund, both a retry of refund and a take fail with NotFound. -/
def chainC4 : Chain :=
  { escrow := some ⟨7, 1, 10, 11, 5, escrowBump 1 7⟩,
    vault := some ⟨10, escrowAddress 1 7, 100⟩,
    atas := [((1, 10), 3), ((2, 11), 40)] }

theorem terminal_exclusivity_wit :
    refund chainC4 1 10
      = .ok ({ escrow := none, vault := none,
               atas := [((1, 10), 103), ((2, 11), 40)] },
             [Event.transfer 10 (escrowAddress 1 7) 1 100,
              Event.closeVault 1, Event.closeEscrow 1]) ∧
    take { escrow := none, vault := none,
           atas := [((1, 10), 103), ((2, 11), 40)] } 2 1 10 11 = .error .notFound ∧
    refund { escrow := none, vault := none,
             atas := [((1, 10), 103), ((2, 11), 40)] } 1 10 = .error .notFound := by
  refine ⟨by rfl, ?_, ?_⟩
  · exact (terminal_exclusivity chainC4 _ _ 2 1 10 11 1 10 (Or.inr (by rfl))).2.2.1 2 1 10 11
  · exact (terminal_exclusivity chainC4 _ _ 2 1 10 11 1 10 (Or.inr (by rfl))).2.2.2 1 10

/-- C1 (amended): for an open escrow whose custody holding carries the
original deposit, a successful Complete-Swap by a taker distinct from the
maker, on an escrow whose two assets are distinct, transfers receive_amount
of asset Y from taker to maker, then the entire custody balance to the
taker, then closes the custody holding: the maker's asset-Y balance grows
by exactly receive_amount, the taker's asset-X balance by exactly the
deposit, the custody holding is gone, and the log ends with the two
transfers and the two closes in that order.  (The distinctness hypotheses
are forced: when taker = maker the asset-Y transfer is a self-transfer and
nets to zero, and when asset X = asset Y the taker's payment debits the
same holding that receives the deposit.) -/
theorem take_conservation (c : Chain) (e : Escrow) (v : TokenAccount)
    (taker maker mintA mintB d : Nat) (c' : Chain) (log : List Event)
    (hesc : c.escrow = some e) (hv : c.vault = some v) (hd : v.amount = d)
    (htm : taker ≠ e.maker) (hab : e.mint_a ≠ e.mint_b)
    (h : take c taker maker mintA mintB = .ok (c', log)) :
    getAta c'.atas (e.maker, e.mint_b)
      = some ((getAta c.atas (e.maker, e.mint_b)).getD 0 + e.receive) ∧
    getAta c'.atas (taker, e.mint_a)
      = some ((getAta c.atas (taker, e.mint_a)).getD 0 + d) ∧
    c'.escrow = none ∧ c'.vault = none ∧
    List.IsSuffix
      [Event.transfer e.mint_b taker e.maker e.receive,
       Event.transfer e.mint_a v.owner taker d,
       Event.closeVault taker, Event.closeEscrow e.maker] log := by
  subst hd
  obtain ⟨hmk, hma, hmb, atas3, bt, hxfer, hbt, hov, hc', hlog⟩ :=
    take_ok_inv c e v taker maker mintA mintB c' log hesc hv h
  subst hmk
  subst hma
  subst hmb
  have hne1 : ((e.maker, e.mint_b) : Nat × Nat) ≠ (taker, e.mint_b) := by
    intro hp
    exact htm (congrArg Prod.fst hp).symm
  obtain ⟨bf, btd, hsrc, hle, hdst, hovd, hatas3⟩ :=
    transferAta_ok _ _ _ _ _ hne1 hxfer
  subst hatas3
  have hkey1 : ((e.maker, e.mint_b) : Nat × Nat) ≠ (taker, e.mint_a) := by
    intro hp
    exact htm (congrArg Prod.fst hp).symm
  have hkey2 : ((taker, e.mint_a) : Nat × Nat) ≠ (taker, e.mint_b) := by
    intro hp
    exact hab (congrArg Prod.snd hp)
  have hkey3 : ((taker, e.mint_a) : Nat × Nat) ≠ (e.maker, e.mint_b) := by
    intro hp
    exact htm (congrArg Prod.fst hp)
  subst hc'
  subst hlog
  refine ⟨?_, ?_, rfl, rfl, ?_⟩
  · rw [getAta_setAta_ne _ _ _ _ hkey1, getAta_setAta_self]
    have hbtd : getAta (initIfNeeded (initIfNeeded c.atas (taker, e.mint_a)).1
        (e.maker, e.mint_b)).1 (e.maker, e.mint_b)
        = some ((getAta c.atas (e.maker, e.mint_b)).getD 0) := by
      rw [getAta_initIfNeeded_self, getAta_initIfNeeded_ne _ _ _ hkey1]
    rw [hdst] at hbtd
    injection hbtd with hbtd2
    subst hbtd2
    rfl
  · rw [getAta_setAta_self]
    have hbt2 : getAta (setAta (setAta
        (initIfNeeded (initIfNeeded c.atas (taker, e.mint_a)).1 (e.maker, e.mint_b)).1
        (taker, e.mint_b) (bf - e.receive)) (e.maker, e.mint_b) (btd + e.receive))
        (taker, e.mint_a)
        = some ((getAta c.atas (taker, e.mint_a)).getD 0) := by
      rw [getAta_setAta_ne _ _ _ _ hkey3, getAta_setAta_ne _ _ _ _ hkey2,
          getAta_initIfNeeded_ne _ _ _ hkey3, getAta_initIfNeeded_self]
    rw [hbt] at hbt2
    injection hbt2 with hbt3
    subst hbt3
    rfl
  · exact List.suffix_append _ _

/-- C1 counterexample state: the maker takes their own escrow
(taker = maker = 1, receive_amount = 5 of mint 11). -/
def chainC1x : Chain :=
  { escrow := some ⟨0, 1, 10, 11, 5, escrowBump 1 0⟩,
    vault := some ⟨10, escrowAddress 1 0, 100⟩,
    atas := [((1, 11), 5)] }

/-- C1 counterexample: a Complete-Swap with taker = maker succeeds, yet the
maker's asset-Y balance does not increase by receive_amount = 5 — it stays
at 5, because the asset-Y transfer is a self-transfer.  The claim as stated
(every successful Complete-Swap raises the maker's asset-Y balance by
exactly receive_amount) is therefore false at this input. -/
theorem take_conservation_cex :
    take chainC1x 1 1 10 11
      = .ok ({ escrow := none, vault := none,
               atas := [((1, 11), 5), ((1, 10), 100)] },
             [Event.createAta 1 10, Event.transfer 11 1 1 5,
              Event.transfer 10 (escrowAddress 1 0) 1 100,
              Event.closeVault 1, Event.closeEscrow 1]) ∧
    getAta chainC1x.atas (1, 11) = some 5 ∧
    getAta [((1, 11), 5), ((1, 10), 100)] (1, 11) = some 5 ∧
    (5 : Nat) ≠ 5 + 5 := by
  exact ⟨by rfl, by rfl, by rfl, by decide⟩

/-- Witness state for `take_conservation`. -/
def chainC1 : Chain :=
  { escrow := some ⟨7, 1, 10, 11, 5, escrowBump 1 7⟩,
    vault := some ⟨10, escrowAddress 1 7, 100⟩,
    atas := [((1, 10), 3), ((2, 11), 40), ((2, 10), 8)] }

/-- Result state of the witness run for `take_conservation`. -/
def chainC1res : Chain :=
  { escrow := none, vault := none,
    atas := [((1, 10), 3), ((2, 11), 35), ((2, 10), 108), ((1, 11), 5)] }

theorem take_conservation_wit :
    take chainC1 2 1 10 11
      = .ok (chainC1res,
             [Event.createAta 1 11, Event.transfer 11 2 1 5,
              Event.transfer 10 (escrowAddress 1 7) 2 100,
              Event.closeVault 2, Event.closeEscrow 1]) ∧
    (2 : Nat) ≠ 1 ∧ (10 : Nat) ≠ 11 ∧
    getAta chainC1res.atas (1, 11)
      = some ((getAta chainC1.atas (1, 11)).getD 0 + 5) ∧
    getAta chainC1res.atas (2, 10)
      = some ((getAta chainC1.atas (2, 10)).getD 0 + 100) := by
  refine ⟨by rfl, by decide, by decide, ?_, ?_⟩
  · exact (take_conservation chainC1 ⟨7, 1, 10, 11, 5, escrowBump 1 7⟩
      ⟨10, escrowAddress 1 7, 100⟩ 2 1 10 11 100 _ _
      (by rfl) (by rfl) (by rfl) (by decide) (by decide) (by rfl)).1
  · exact (take_conservation chainC1 ⟨7, 1, 10, 11, 5, escrowBump 1 7⟩
      ⟨10, escrowAddress 1 7, 100⟩ 2 1 10 11 100 _ _
      (by rfl) (by rfl) (by rfl) (by decide) (by decide) (by rfl)).2.1

/-- C5 (amended): Create-Escrow performs no positivity validation of the
amounts: every call with deposit_amount = 0 or receive_amount = 0 succeeds
under the ordinary account preconditions (the maker's holding exists and
covers the deposit, the deposit fits in u64, record and vault are fresh)
and opens an escrow with exactly those amounts. -/
theorem make_zero_amounts (c : Chain)
    (maker seed depositAmt receiveAmt mintA mintB balA : Nat)
    (_hz : depositAmt = 0 ∨ receiveAmt = 0)
    (hba : getAta c.atas (maker, mintA) = some balA)
    (hle : depositAmt ≤ balA) (hlim : depositAmt < U64LIM)
    (hesc : c.escrow = none) (hv : c.vault = none) :
    make c maker seed depositAmt receiveAmt mintA mintB
      = .ok ({ escrow := some ⟨seed, maker, mintA, mintB, receiveAmt,
                               escrowBump maker seed⟩,
               vault := some ⟨mintA, escrowAddress maker seed, depositAmt⟩,
               atas := setAta c.atas (maker, mintA) (balA - depositAmt) },
             [Event.transfer mintA maker (escrowAddress maker seed) depositAmt]) := by
  unfold make
  rw [hba, hesc, hv]
  simp [hle, hlim]

/-- C5 counterexample state: no escrow yet, the maker holds an empty
mint-10 account. -/
def chainC5 : Chain := { escrow := none, vault := none, atas := [((1, 10), 0)] }

/-- C5 counterexample: Create-Escrow with deposit_amount = 0 and
receive_amount = 0 succeeds and opens an escrow, contradicting the claim
that such a call does not succeed. -/
theorem make_zero_amounts_cex :
    make chainC5 1 7 0 0 10 11
      = .ok ({ escrow := some ⟨7, 1, 10, 11, 0, escrowBump 1 7⟩,
               vault := some ⟨10, escrowAddress 1 7, 0⟩,
               atas := [((1, 10), 0)] },
             [Event.transfer 10 1 (escrowAddress 1 7) 0]) := by
  rfl

theorem make_zero_amounts_wit :
    ((0 : Nat) = 0 ∨ (7 : Nat) = 0) ∧
    getAta chainC5.atas (1, 10) = some 0 ∧
    chainC5.escrow = none ∧ chainC5.vault = none ∧
    make chainC5 1 9 0 7 10 11
      = .ok ({ escrow := some ⟨9, 1, 10, 11, 7, escrowBump 1 9⟩,
               vault := some ⟨10, escrowAddress 1 9, 0⟩,
               atas := setAta chainC5.atas (1, 10) 0 },
             [Event.transfer 10 1 (escrowAddress 1 9) 0]) := by
  refine ⟨Or.inl rfl, by rfl, by rfl, by rfl, ?_⟩
  exact make_zero_amounts chainC5 1 9 0 7 10 11 0 (Or.inl rfl) (by rfl)
    (by decide) (by decide) rfl rfl

/-- C6 (amended): a Complete-Swap whose supplied maker or mints disagree
with the stored record fails with TermMismatch, provided the taker holds an
account for the supplied asset Y (when that holding is absent, account
validation fails earlier with NotFound, as the counterexample shows); the
visible state is unchanged, so the escrow remains Open with all balances
intact. -/
theorem take_term_mismatch (c : Chain) (e : Escrow)
    (taker maker mintA mintB bb : Nat)
    (hesc : c.escrow = some e)
    (hb : getAta c.atas (taker, mintB) = some bb)
    (hmis : maker ≠ e.maker ∨ mintA ≠ e.mint_a ∨ mintB ≠ e.mint_b) :
    take c taker maker mintA mintB = .error .termMismatch ∧
    visibleAfter (take c taker maker mintA mintB) c = c := by
  have hsome : ∃ b2, getAta (initIfNeeded c.atas (taker, mintA)).1 (taker, mintB)
      = some b2 := by
    by_cases hk : ((taker, mintB) : Nat × Nat) = (taker, mintA)
    · rw [hk, getAta_initIfNeeded_self]
      exact ⟨_, rfl⟩
    · rw [getAta_initIfNeeded_ne _ _ _ hk, hb]
      exact ⟨bb, rfl⟩
  obtain ⟨b2, hb2⟩ := hsome
  have heq : take c taker maker mintA mintB = .error .termMismatch := by
    unfold take
    rw [hb2, hesc]
    by_cases h1 : maker = e.maker
    · by_cases h2 : mintA = e.mint_a
      · by_cases h3 : mintB = e.mint_b
        · rcases hmis with hm | hm | hm
          · exact absurd h1 hm
          · exact absurd h2 hm
          · exact absurd h3 hm
        · simp [h1, h2, h3]
      · simp [h1, h2]
    · simp [h1]
  refine ⟨heq, ?_⟩
  rw [heq]
  rfl

/-- C6 counterexample / witness state: an open escrow for
(maker 1, mint_a 10, mint_b 11). -/
def chainC6 : Chain :=
  { escrow := some ⟨7, 1, 10, 11, 5, escrowBump 1 7⟩,
    vault := some ⟨10, escrowAddress 1 7, 100⟩,
    atas := [((1, 10), 3), ((2, 11), 40), ((2, 10), 8)] }

/-- C6 counterexample: with a supplied asset Y (mint 12) that disagrees
with the stored record (mint 11), but for which the taker holds no
account, Complete-Swap fails with NotFound, not TermMismatch: account
validation of the taker's asset-Y holding precedes the record's term
checks. -/
theorem take_term_mismatch_cex :
    take chainC6 2 1 10 12 = .error .notFound ∧
    (12 : Nat) ≠ 11 ∧ Err.notFound ≠ Err.termMismatch := by
  exact ⟨by rfl, by decide, by decide⟩

theorem take_term_mismatch_wit :
    chainC6.escrow = some ⟨7, 1, 10, 11, 5, escrowBump 1 7⟩ ∧
    getAta chainC6.atas (2, 11) = some 40 ∧ (3 : Nat) ≠ 1 ∧
    take chainC6 2 3 10 11 = .error .termMismatch := by
  refine ⟨by rfl, by rfl, by decide, ?_⟩
  exact (take_term_mismatch chainC6 ⟨7, 1, 10, 11, 5, escrowBump 1 7⟩ 2 3 10 11 40
    (by rfl) (by rfl) (Or.inl (by decide))).1

/-- C7 (amended): a Refund whose signing caller is not the stored maker
fails with Unauthorized whatever asset the caller supplies — the escrow's
seeds-derivation binding to the signing caller is evaluated before the
`has_one` constraints and fails for any non-maker caller — provided the
caller's holding of the supplied asset exists (account validation precedes
the escrow checks, so a missing holding fails earlier with NotFound, as
the counterexample shows); the visible state is unchanged, so the escrow
remains Open with the custody balance intact. -/
theorem refund_unauthorized (c : Chain) (e : Escrow) (caller mintA b : Nat)
    (hesc : c.escrow = some e)
    (hb : getAta c.atas (caller, mintA) = some b)
    (hcm : caller ≠ e.maker) :
    refund c caller mintA = .error .unauthorized ∧
    visibleAfter (refund c caller mintA) c = c := by
  have heq : refund c caller mintA = .error .unauthorized := by
    unfold refund
    rw [hb, hesc]
    simp [hcm]
  refine ⟨heq, ?_⟩
  rw [heq]
  rfl

/-- C7 counterexample state: caller 2 is not the maker 1 and holds no
account at all for the supplied asset. -/
def chainC7x : Chain :=
  { escrow := some ⟨7, 1, 10, 11, 5, escrowBump 1 7⟩,
    vault := some ⟨10, escrowAddress 1 7, 100⟩,
    atas := [] }

/-- C7 counterexample: a Refund by a caller who is not the stored maker
fails with NotFound — not Unauthorized — when the caller's holding of the
supplied asset does not exist, because the holding is validated (in struct
order) before any escrow constraint is checked. -/
theorem refund_unauthorized_cex :
    refund chainC7x 2 10 = .error .notFound ∧
    (2 : Nat) ≠ 1 ∧ Err.notFound ≠ Err.unauthorized := by
  exact ⟨by rfl, by decide, by decide⟩

/-- C7 witness state: caller 2 is not the maker 1, holds a mint-12 account,
and supplies mint 12 — which even disagrees with the stored mint 10; the
derivation binding still fails first, giving Unauthorized. -/
def chainC7 : Chain :=
  { escrow := some ⟨7, 1, 10, 11, 5, escrowBump 1 7⟩,
    vault := some ⟨10, escrowAddress 1 7, 100⟩,
    atas := [((2, 12), 4)] }

theorem refund_unauthorized_wit :
    chainC7.escrow = some ⟨7, 1, 10, 11, 5, escrowBump 1 7⟩ ∧
    getAta chainC7.atas (2, 12) = some 4 ∧ (2 : Nat) ≠ 1 ∧
    refund chainC7 2 12 = .error .unauthorized := by
  refine ⟨by rfl, by rfl, by decide, ?_⟩
  exact (refund_unauthorized chainC7 ⟨7, 1, 10, 11, 5, escrowBump 1 7⟩ 2 12 4
    (by rfl) (by rfl) (by decide)).1

/-- The associated-token transfer primitive never reports the custody
close-time error. -/
theorem transferAta_ne_custody (l : List ((Nat × Nat) × Nat)) (src dst : Nat × Nat)
    (amt : Nat) : transferAta l src dst amt ≠ .error .custodyNotEmpty := by
  unfold transferAta
  repeat' split
  all_goals simp

theorem take_ne_custody (c : Chain) (taker maker mintA mintB : Nat) :
    take c taker maker mintA mintB ≠ .error .custodyNotEmpty := by
  intro h
  unfold take at h
  repeat' split at h
  all_goals try cases h
  all_goals first
    | exact transferAta_ne_custody _ _ _ _ (by assumption)
    | simp_all [withdrawVault, closeVaultCheck]
  all_goals rename_i hvv hga hbound hnz
  all_goals exact hnz (by rw [← hvv])

theorem refund_ne_custody (c : Chain) (caller mintA : Nat) :
    refund c caller mintA ≠ .error .custodyNotEmpty := by
  intro h
  unfold refund at h
  repeat' split at h
  all_goals try cases h
  all_goals simp_all [withdrawVault, closeVaultCheck]
  all_goals rename_i hvv hbound hnz
  all_goals exact hnz (by rw [← hvv])

/-- C8: in both Complete-Swap and Refund the closing of the custody holding
runs only after the transfer of the holding's entire current balance, so
the close primitive's zero-balance requirement always holds: neither
operation can ever return CustodyNotEmpty, on any state and any supplied
accounts. -/
theorem custody_not_empty_unreachable (c : Chain)
    (taker maker mintA mintB caller mintR : Nat) :
    take c taker maker mintA mintB ≠ .error .custodyNotEmpty ∧
    refund c caller mintR ≠ .error .custodyNotEmpty :=
  ⟨take_ne_custody c taker maker mintA mintB, refund_ne_custody c caller mintR⟩

theorem custody_not_empty_unreachable_wit :
    take chainC6 2 1 10 11 ≠ .error .custodyNotEmpty ∧
    refund chainC6 1 10 ≠ .error .custodyNotEmpty :=
  custody_not_empty_unreachable chainC6 2 1 10 11 1 10

/-- C9: every operation is all-or-nothing: either it returns an error and
the state visible to other parties is exactly the pre-state (the host
runtime reverts an erroring instruction, spec §5), or it succeeds and the
complete effect is applied — Create-Escrow leaves the written record and
funded custody holding in place, and Complete-Swap/Refund retire both the
record and the custody holding. -/
theorem all_or_nothing (c : Chain)
    (maker seed dep rcv mintA mintB taker tmk tma tmb caller rma : Nat) :
    ((∃ er, make c maker seed dep rcv mintA mintB = .error er ∧
        visibleAfter (make c maker seed dep rcv mintA mintB) c = c) ∨
     (∃ c2 log, make c maker seed dep rcv mintA mintB = .ok (c2, log) ∧
        visibleAfter (make c maker seed dep rcv mintA mintB) c = c2 ∧
        c2.escrow = some ⟨seed, maker, mintA, mintB, rcv, escrowBump maker seed⟩ ∧
        c2.vault = some ⟨mintA, escrowAddress maker seed, dep⟩)) ∧
    ((∃ er, take c taker tmk tma tmb = .error er ∧
        visibleAfter (take c taker tmk tma tmb) c = c) ∨
     (∃ c2 log, take c taker tmk tma tmb = .ok (c2, log) ∧
        visibleAfter (take c taker tmk tma tmb) c = c2 ∧
        c2.escrow = none ∧ c2.vault = none)) ∧
    ((∃ er, refund c caller rma = .error er ∧
        visibleAfter (refund c caller rma) c = c) ∨
     (∃ c2 log, refund c caller rma = .ok (c2, log) ∧
        visibleAfter (refund c caller rma) c = c2 ∧
        c2.escrow = none ∧ c2.vault = none)) := by
  refine ⟨?_, ?_, ?_⟩
  · cases hr : make c maker seed dep rcv mintA mintB with
    | error er => exact Or.inl ⟨er, rfl, rfl⟩
    | ok pr =>
      obtain ⟨c2, log⟩ := pr
      obtain ⟨balA, hba, hle, hesc, hv, hc2, hlog⟩ := make_ok_inv _ _ _ _ _ _ _ _ _ hr
      exact Or.inr ⟨c2, log, rfl, rfl, by rw [hc2], by rw [hc2]⟩
  · cases hr : take c taker tmk tma tmb with
    | error er => exact Or.inl ⟨er, rfl, rfl⟩
    | ok pr =>
      obtain ⟨c2, log⟩ := pr
      obtain ⟨h1, h2⟩ := take_ok_closed _ _ _ _ _ _ _ hr
      exact Or.inr ⟨c2, log, rfl, rfl, h1, h2⟩
  · cases hr : refund c caller rma with
    | error er => exact Or.inl ⟨er, rfl, rfl⟩
    | ok pr =>
      obtain ⟨c2, log⟩ := pr
      obtain ⟨h1, h2⟩ := refund_ok_closed _ _ _ _ _ hr
      exact Or.inr ⟨c2, log, rfl, rfl, h1, h2⟩

/-- C10: Refund's outcome is independent of the record's asset_y_id and
receive_amount fields: on two states identical except in those two fields
of the escrow record, a Refund invocation returns the very same result —
same success or error, same resulting balances and closures, same event
log.  Refund never reads asset-Y accounts and never moves asset Y. -/
theorem refund_term_independence (c1 c2 : Chain) (e1 e2 : Escrow)
    (caller mintA : Nat)
    (hesc1 : c1.escrow = some e1) (hesc2 : c2.escrow = some e2)
    (hseed : e2.seed = e1.seed) (hmaker : e2.maker = e1.maker)
    (hminta : e2.mint_a = e1.mint_a) (_hbump : e2.bump = e1.bump)
    (hvault : c2.vault = c1.vault) (hatas : c2.atas = c1.atas) :
    refund c2 caller mintA = refund c1 caller mintA := by
  unfold refund
  simp only [hesc1, hesc2, hvault, hatas, hseed, hmaker, hminta]

/-- C10 witness states: identical except that the second escrow requests
asset 99 in quantity 77 instead of asset 11 in quantity 5. -/
def chainC10a : Chain :=
  { escrow := some ⟨7, 1, 10, 11, 5, escrowBump 1 7⟩,
    vault := some ⟨10, escrowAddress 1 7, 100⟩,
    atas := [((1, 10), 3), ((2, 11), 40)] }

def chainC10b : Chain :=
  { escrow := some ⟨7, 1, 10, 99, 77, escrowBump 1 7⟩,
    vault := some ⟨10, escrowAddress 1 7, 100⟩,
    atas := [((1, 10), 3), ((2, 11), 40)] }

theorem refund_term_independence_wit :
    chainC10a.escrow = some ⟨7, 1, 10, 11, 5, escrowBump 1 7⟩ ∧
    chainC10b.escrow = some ⟨7, 1, 10, 99, 77, escrowBump 1 7⟩ ∧
    chainC10b.vault = chainC10a.vault ∧ chainC10b.atas = chainC10a.atas ∧
    refund chainC10b 1 10 = refund chainC10a 1 10 := by
  refine ⟨by rfl, by rfl, by rfl, by rfl, ?_⟩
  exact refund_term_independence chainC10a chainC10b
    ⟨7, 1, 10, 11, 5, escrowBump 1 7⟩ ⟨7, 1, 10, 99, 77, escrowBump 1 7⟩ 1 10
    (by rfl) (by rfl) (by rfl) (by rfl) (by rfl) (by rfl) (by rfl) (by rfl)

end AnchorEscrow
